import Mathlib

/-!
Shallow embedding of the rag-edr detection-and-response core, together with
proofs checking the natural-language specification against the code.

Strings are modelled as `List Char`; the numeric scores (Python floats used
only through exact decimal literals and field arithmetic) are modelled as `ℚ`.
Filesystem state (the lineage log, the quarantine vault) is passed explicitly;
clock reads (`datetime.utcnow()`) become explicit integer parameters.
-/

namespace RagEdr

/- ==================== generic string / list machinery ==================== -/

/-- ASCII lowercase of a string, modelling Python `str.lower()` on the
ASCII content this system works with (`Char.toLower` maps only A–Z). -/
def lowerStr (s : List Char) : List Char := s.map Char.toLower

/-- The characters stripped by Python `str.strip()` with no argument. -/
def isStripChar (c : Char) : Bool :=
  c = ' ' || c = '\t' || c = '\n' || c = '\x0D' || c = '\x0B' || c = '\x0C'

/-- Python `str.strip()`: drop whitespace from both ends. -/
def trimStr (s : List Char) : List Char :=
  ((s.dropWhile isStripChar).reverse.dropWhile isStripChar).reverse

/-- Python `str.split("\n")`: split at every newline, keeping empty parts
(`"".split("\n") == [""]`). -/
def splitLines : List Char → List (List Char)
  | [] => [[]]
  | c :: t =>
    if c = '\n' then [] :: splitLines t
    else
      match splitLines t with
      | [] => [[c]]
      | l :: ls => (c :: l) :: ls

/-- Python `sep.join(parts)` for a one-character separator. -/
def joinWith (c : Char) : List (List Char) → List Char
  | [] => []
  | [t] => t
  | t :: ts => t ++ c :: joinWith c ts

/-- Python `p in s`: substring containment. -/
def containsSub (p : List Char) : List Char → Bool
  | [] => p.isPrefixOf []
  | c :: t => p.isPrefixOf (c :: t) || containsSub p t

/-- Number of positions of `l` at which `p` occurs as a substring.  For the
patterns used here (CVE identifiers, which cannot overlap themselves) this
agrees with Python `str.count`. -/
def countOcc (p : List Char) : List Char → Nat
  | [] => if p.isPrefixOf ([] : List Char) then 1 else 0
  | c :: t => (if p.isPrefixOf (c :: t) then 1 else 0) + countOcc p t

/-- Order-preserving deduplication keeping first occurrences, with an
accumulator of already-seen elements: Python's `seen`-set loop. -/
def dedupKeep {α : Type} [DecidableEq α] (seen : List α) : List α → List α
  | [] => []
  | m :: ms => if m ∈ seen then dedupKeep seen ms else m :: dedupKeep (m :: seen) ms

/- ==================== integrity signals (engine/schemas.py) ==================== -/

/-- The four-signal score tuple from `engine/schemas.py` (`IntegritySignals`). -/
structure IntegritySignals where
  trust_score : ℚ
  red_flag_score : ℚ
  anomaly_score : ℚ
  semantic_drift_score : ℚ
deriving DecidableEq

/-- The pydantic field bounds `Field(ge=0.0, le=1.0)` on each signal. -/
def IntegritySignals.InRange (s : IntegritySignals) : Prop :=
  0 ≤ s.trust_score ∧ s.trust_score ≤ 1 ∧
  0 ≤ s.red_flag_score ∧ s.red_flag_score ≤ 1 ∧
  0 ≤ s.anomaly_score ∧ s.anomaly_score ≤ 1 ∧
  0 ≤ s.semantic_drift_score ∧ s.semantic_drift_score ≤ 1

instance (s : IntegritySignals) : Decidable s.InRange := by
  unfold IntegritySignals.InRange; infer_instance

/-- The signal-weight table from `config.py` (`SIGNAL_WEIGHTS`). -/
structure SignalWeights where
  trust : ℚ
  red_flag : ℚ
  anomaly : ℚ
  semantic : ℚ

def SIGNAL_WEIGHTS : SignalWeights :=
  { trust := 0.25, red_flag := 0.35, anomaly := 0.15, semantic := 0.25 }

/-- `IntegritySignals.combined_score`: the weighted sum of the four signals
using `config.SIGNAL_WEIGHTS`. -/
def combinedScore (s : IntegritySignals) : ℚ :=
  s.trust_score * SIGNAL_WEIGHTS.trust +
  s.red_flag_score * SIGNAL_WEIGHTS.red_flag +
  s.anomaly_score * SIGNAL_WEIGHTS.anomaly +
  s.semantic_drift_score * SIGNAL_WEIGHTS.semantic

/-- `IntegritySignals.should_quarantine`: true when at least 2 of the 4
signals are strictly below the threshold (Python sums four booleans). -/
def shouldQuarantine (s : IntegritySignals) (threshold : ℚ) : Bool :=
  let below : Nat :=
    (if s.trust_score < threshold then 1 else 0) +
    (if s.red_flag_score < threshold then 1 else 0) +
    (if s.anomaly_score < threshold then 1 else 0) +
    (if s.semantic_drift_score < threshold then 1 else 0)
  decide (2 ≤ below)

/- ==================== event logger (engine/logging/event_logger.py) ==================== -/

inductive EventLevel where
  | information | warning | error | critical
deriving DecidableEq

inductive EventCategory where
  | integrity | quarantine | blastRadius | system
deriving DecidableEq

/-- The claim-relevant fields of `engine/schemas.py` `Event` (timestamp,
details map, user/session ids are not needed by any claim). -/
structure Event where
  event_id : Nat
  level : EventLevel
  category : EventCategory
  message : List Char
deriving DecidableEq

/-- `EventLogger.log_system_event`: builds an Information-level event in the
System category with the caller-supplied `event_id`. -/
def logSystemEvent (event_id : Nat) (message : List Char) : Event :=
  { event_id := event_id, level := .information, category := .system, message := message }

/-- The event the orchestrator logs when retrieval returns no documents
(`engine/pipeline.py`, `RAGPipeline.query`, the `if not retrieved:` branch):
`log_system_event(event_id=1001, message=f"Query returned no documents: {query_text[:50]}...")`. -/
def noDocsEvent (query_text : List Char) : Event :=
  logSystemEvent 1001 (("Query returned no documents: ".toList) ++ query_text.take 50 ++ "...".toList)

/-- The System-range event ids documented in `config.EVENT_IDS` (4001–4004). -/
def systemEventIds : List Nat := [4001, 4002, 4003, 4004]

/- ==================== blast radius (engine/response/blast_radius.py) ==================== -/

inductive Severity where
  | LOW | MEDIUM | HIGH | CRITICAL
deriving DecidableEq

/-- Rank of a severity in the order LOW < MEDIUM < HIGH < CRITICAL. -/
def sevRank : Severity → Nat
  | .LOW => 0
  | .MEDIUM => 1
  | .HIGH => 2
  | .CRITICAL => 3

/-- One row of `config.BLAST_RADIUS_THRESHOLDS`. -/
structure SevThreshold where
  queries : Nat
  users : Nat

def THRESHOLD_MEDIUM : SevThreshold := { queries := 1, users := 1 }
def THRESHOLD_HIGH : SevThreshold := { queries := 5, users := 3 }
def THRESHOLD_CRITICAL : SevThreshold := { queries := 20, users := 10 }

/-- `BlastRadiusAnalyzer._calculate_severity`. -/
def calcSeverity (query_count user_count : Nat) : Severity :=
  if THRESHOLD_CRITICAL.queries ≤ query_count ∨ THRESHOLD_CRITICAL.users ≤ user_count then
    .CRITICAL
  else if THRESHOLD_HIGH.queries ≤ query_count ∨ THRESHOLD_HIGH.users ≤ user_count then
    .HIGH
  else if THRESHOLD_MEDIUM.queries ≤ query_count ∧ THRESHOLD_MEDIUM.users ≤ user_count then
    .MEDIUM
  else
    .LOW

/-- `BlastRadiusAnalyzer._generate_recommendations`. -/
def genRecommendations (severity : Severity) (user_count : Nat) (doc_id : String) : List String :=
  ["Review query lineage log for document " ++ doc_id,
   "Notify " ++ toString user_count ++ " affected user(s) about potentially compromised guidance"]
  ++ (if severity = .HIGH ∨ severity = .CRITICAL then
      ["Conduct full security audit of recent actions",
       "Review any remediation steps taken based on this document",
       "Consider investigating document source for additional compromised content",
       "Escalate to security incident response team"]
     else [])
  ++ (if severity = .CRITICAL then
      ["Initiate emergency response protocol",
       "Audit all user sessions in affected time window",
       "Consider temporary suspension of affected document source"]
     else [])

/-- A parsed line of the query-lineage log (`engine/schemas.py` `QueryLineage`);
timestamps are integers (seconds). -/
structure QueryLineage where
  query_id : String
  user_id : String
  timestamp : Int
  retrieved_docs : List String
deriving DecidableEq

/-- The claim-relevant fields of `BlastRadiusReport` (file path, time window
and query details are not needed by any claim). -/
structure BlastRadiusReport where
  doc_id : String
  affected_queries : Nat
  affected_users : List String
  severity : Severity
  recommended_actions : List String
deriving DecidableEq

/-- `BlastRadiusAnalyzer._empty_report`. -/
def emptyReport (doc_id : String) : BlastRadiusReport :=
  { doc_id := doc_id
    affected_queries := 0
    affected_users := []
    severity := .LOW
    recommended_actions := ["No affected queries found in lookback window"] }

/-- `BlastRadiusAnalyzer.analyze_impact`.  The log file is `none` when it does
not exist; otherwise it is the list of its lines, a line being `none` when it
fails to parse (such lines are skipped).  `now` and `lookback` replace
`datetime.utcnow()` and the lookback window; `cutoff = now - lookback`. -/
def analyzeImpact (log : Option (List (Option QueryLineage))) (doc_id : String)
    (now lookback : Int) : BlastRadiusReport :=
  match log with
  | none => emptyReport doc_id
  | some lines =>
    let matched := (lines.filterMap id).filter
      (fun e => decide (doc_id ∈ e.retrieved_docs) && decide (now - lookback ≤ e.timestamp))
    let users := dedupKeep [] (matched.map (·.user_id))
    let sev := calcSeverity matched.length users.length
    { doc_id := doc_id
      affected_queries := matched.length
      affected_users := users
      severity := sev
      recommended_actions := genRecommendations sev users.length doc_id }

/- ==================== red-flag detector (engine/detection/red_flag_detector.py) ==================== -/

/-- The keyword table `config.RED_FLAGS`, in source order. -/
def RED_FLAGS : List (String × List String) :=
  [("security_downgrade",
    ["disable firewall", "turn off waf", "skip security scan", "stop firewalld",
     "systemctl stop", "ufw disable", "temporarily disable security",
     "bypass security", "disable antivirus"]),
   ("dangerous_permissions",
    ["chmod 777", "chmod -r 777", "chmod -R 777", "permissive permissions",
     "world-writable", "grant full access", "0777"]),
   ("severity_downplay",
    ["low priority", "not urgent", "ignore this cve", "can be deferred",
     "no immediate action", "largely mitigated", "low-medium severity",
     "adequate protection", "next maintenance window"]),
   ("unsafe_operations",
    ["skip verification", "bypass check", "disable validation",
     "without security modules", "run as root", "disable selinux",
     "disable apparmor", "ignore warning"]),
   ("social_engineering",
    ["trust this source", "urgent action required", "verify later",
     "verified by community", "everyone uses this", "no need to check",
     "pre-approved", "already validated"])]

/-- The line patterns of the golden-corpus exemption in `RedFlagDetector.score`. -/
def GOLDEN_LINE_PATTERNS : List (List Char) :=
  ["never ".toList, "warning:".toList, "- never".toList, "do not ".toList]

/-- The golden-corpus line filter in `RedFlagDetector.score`: drop every line
whose lowercased, stripped form contains one of the patterns, and re-join. -/
def filterGoldenContent (content : List Char) : List Char :=
  joinWith '\n' ((splitLines content).filter
    (fun line => ! GOLDEN_LINE_PATTERNS.any
      (fun pat => containsSub pat (trimStr (lowerStr line)))))

/-- Number of keywords of one category matching the lowercased content
(`keyword.lower() in content_lower`). -/
def categoryFlags (content_lower : List Char) (keywords : List String) : Nat :=
  keywords.countP (fun kw => containsSub (lowerStr kw.toList) content_lower)

/-- The scoring part of `RedFlagDetector.score` (everything after the
golden-corpus filter), on the (possibly filtered) content. -/
def scoreContent (flags : List (String × List String)) (content : List Char) : ℚ :=
  let cl := lowerStr content
  let total : Nat := (flags.map (fun p => categoryFlags cl p.2)).sum
  let cats : Nat := flags.countP (fun p => decide (0 < categoryFlags cl p.2))
  let maxFlags : Nat := (flags.map (fun p => p.2.length)).sum
  if maxFlags = 0 then 1
  else
    let fRatioAmp : ℚ := (total : ℚ) / (maxFlags : ℚ)
    let base : ℚ := 1 - fRatioAmp * 1.5
    let base2 : ℚ :=
      if 4 ≤ cats then base * 0.60
      else if 3 ≤ cats then base * 0.70
      else if 2 ≤ cats then base * 0.80
      else base
    max base2 0

/-- `RedFlagDetector.score`: apply the golden-corpus line filter when
`metadata.get('category') == 'golden'`, then score.  `category` is `none`
when the metadata is absent or carries no category. -/
def redFlagScore (flags : List (String × List String)) (content : List Char)
    (category : Option String) : ℚ :=
  scoreContent flags (if category = some "golden" then filterGoldenContent content else content)

/-- The red-flag scoring formula as the specification words it (for the
refinement check of the scoring code): `base = 1 − 1.5·(total/max)` clamped
to ≥ 0, a cross-category multiplier, and a final clamp at 0. -/
def claimRedFlagScore (flags : List (String × List String)) (content : List Char) : ℚ :=
  let cl := lowerStr content
  let total : Nat := (flags.map (fun p => categoryFlags cl p.2)).sum
  let cats : Nat := flags.countP (fun p => decide (0 < categoryFlags cl p.2))
  let maxFlags : Nat := (flags.map (fun p => p.2.length)).sum
  let base : ℚ := max (1 - 1.5 * ((total : ℚ) / (maxFlags : ℚ))) 0
  let mult : ℚ :=
    if 4 ≤ cats then 0.60
    else if 3 ≤ cats then 0.70
    else if 2 ≤ cats then 0.80
    else 1
  max (base * mult) 0

/- ==================== entity extractor (engine/utils/entity_extractor.py) ==================== -/

/-- Greedy `\d{1,n}` of the CVE regex: consume up to `n` leading ASCII digits,
returning them and the rest. -/
def takeDigitsUpTo : Nat → List Char → List Char × List Char
  | 0, l => ([], l)
  | _ + 1, [] => ([], [])
  | n + 1, c :: l =>
    if c.isDigit then ((c :: (takeDigitsUpTo n l).1), (takeDigitsUpTo n l).2)
    else ([], c :: l)

/-- One attempted match of the case-insensitive regex `CVE-\d{4}-\d{1,7}` at
the head of the list (`EntityExtractor.CVE_PATTERN`).  On success, returns the
uppercase-normalized match and the remaining input after it. -/
def matchCVEAt : List Char → Option (List Char × List Char)
  | c1 :: c2 :: c3 :: c4 :: d1 :: d2 :: d3 :: d4 :: c5 :: rest =>
    if c1.toLower = 'c' && c2.toLower = 'v' && c3.toLower = 'e' && c4 = '-'
        && d1.isDigit && d2.isDigit && d3.isDigit && d4.isDigit && c5 = '-'
        && ! (takeDigitsUpTo 7 rest).1.isEmpty then
      some ('C' :: 'V' :: 'E' :: '-' :: d1 :: d2 :: d3 :: d4 :: '-' :: (takeDigitsUpTo 7 rest).1,
            (takeDigitsUpTo 7 rest).2)
    else none
  | _ => none

/-- `re.findall` for this pattern, fuel-indexed: scan left to right, taking
non-overlapping matches; on a failed attempt, advance one character.  A
successful match consumes at least one character, so any fuel of at least the
input length reproduces the unbounded scan. -/
def scanCVEsFuel : Nat → List Char → List (List Char)
  | 0, _ => []
  | _ + 1, [] => []
  | fuel + 1, c :: t =>
    match matchCVEAt (c :: t) with
    | some (m, r) => m :: scanCVEsFuel fuel r
    | none => scanCVEsFuel fuel t

/-- The full scan of `re.findall(CVE_PATTERN, text)`. -/
def scanCVEs (l : List Char) : List (List Char) :=
  scanCVEsFuel l.length l

/-- `EntityExtractor.extract_cve_ids`: find all matches, normalize to
uppercase (done inside `matchCVEAt`), deduplicate preserving order. -/
def extractCveIds (l : List Char) : List (List Char) :=
  dedupKeep [] (scanCVEs l)

/- ==================== query processor (engine/utils/query_processor.py) ==================== -/

/-- The boosted-term list of `QueryProcessor.augment_query`: each extracted
CVE id repeated `boost` times. -/
def boostTerms (ids : List (List Char)) (boost : Nat) : List (List Char) :=
  ids.flatMap (fun i => List.replicate boost i)

/-- `QueryProcessor.augment_query`: if no CVE ids are present return the query
unchanged, else `" ".join(boosted_terms) + " " + query`. -/
def augmentQuery (query : List Char) (boost : Nat) : List Char :=
  let ids := extractCveIds query
  if ids = [] then query
  else joinWith ' ' (boostTerms ids boost) ++ ' ' :: query

/- ==================== quarantine vault (engine/response/quarantine_vault.py) ==================== -/

inductive QuarantineState where
  | DETECTED | QUARANTINED | CONFIRMED_MALICIOUS | RESTORED
deriving DecidableEq

/-- One audit-trail entry (`QuarantineRecord.add_audit_entry`); the wall-clock
timestamp is omitted (no claim concerns it).  `previous_state` is optional
because the Python code guards it with `hasattr(self, 'state')`. -/
structure AuditEntry where
  action : String
  actor : String
  note : String
  previous_state : Option QuarantineState
deriving DecidableEq

/-- The claim-relevant fields of `QuarantineRecord`. -/
structure QuarantineRecord where
  quarantine_id : String
  doc_id : String
  state : QuarantineState
  reason : String
  audit_trail : List AuditEntry
deriving DecidableEq

/-- `QuarantineRecord.add_audit_entry`: append an entry whose
`previous_state` reads the record's state field at call time. -/
def addAuditEntry (r : QuarantineRecord) (action actor note : String) : QuarantineRecord :=
  { r with audit_trail :=
      r.audit_trail ++ [{ action := action, actor := actor, note := note,
                          previous_state := some r.state }] }

/-- One vault directory `Q-<ts>-<doc_id>/`: the `record.json` contents and the
`audit.jsonl` lines. -/
structure VaultDir where
  record : QuarantineRecord
  audit_log : List AuditEntry
deriving DecidableEq

/-- The vault directory tree, keyed by quarantine id. -/
def VaultState := List (String × VaultDir)

/-- Errors the vault surfaces to the caller; `notFound` models
`ValueError(f"Quarantine ID not found: {quarantine_id}")`. -/
inductive VaultError where
  | notFound (qid : String)
deriving DecidableEq

/-- Calls made to the vector-store collaborator. -/
inductive VSCall where
  | restore (doc_id : String)
deriving DecidableEq

/-- Rewriting `record.json` inside an existing directory. -/
def updateVault (v : VaultState) (k : String) (d : VaultDir) : VaultState :=
  v.map (fun p => if p.1 = k then (k, d) else p)

/-- `QuarantineVault.confirm_malicious`: check the directory exists (error out
otherwise), set the state to CONFIRMED_MALICIOUS, append the audit entry,
rewrite the record and mirror the entry to `audit.jsonl`.  Returns the call
outcome, the vault state afterwards, and the vector-store calls made. -/
def confirmMalicious (v : VaultState) (qid analyst note : String) :
    Except VaultError Unit × VaultState × List VSCall :=
  match List.lookup qid v with
  | none => (Except.error (VaultError.notFound qid), v, [])
  | some dir =>
    let r1 := { dir.record with state := QuarantineState.CONFIRMED_MALICIOUS }
    let r2 := addAuditEntry r1 "CONFIRMED_MALICIOUS" analyst note
    let entry := r2.audit_trail.getLastD
      { action := "", actor := "", note := "", previous_state := none }
    (Except.ok (), updateVault v qid { record := r2, audit_log := dir.audit_log ++ [entry] }, [])

/-- `QuarantineVault.restore_document`: same shape as `confirm_malicious` with
target state RESTORED, plus a vector-store `restore_document(doc_id)` call. -/
def restoreDocument (v : VaultState) (qid analyst note : String) :
    Except VaultError Unit × VaultState × List VSCall :=
  match List.lookup qid v with
  | none => (Except.error (VaultError.notFound qid), v, [])
  | some dir =>
    let r1 := { dir.record with state := QuarantineState.RESTORED }
    let r2 := addAuditEntry r1 "RESTORED" analyst note
    let entry := r2.audit_trail.getLastD
      { action := "", actor := "", note := "", previous_state := none }
    (Except.ok (), updateVault v qid { record := r2, audit_log := dir.audit_log ++ [entry] },
     [VSCall.restore r2.doc_id])

/- ==================== claim theorems ==================== -/

/-- C1: for every `IntegritySignals` value (four scores each in `[0,1]`) and
every threshold `τ`, `should_quarantine(τ)` returns true iff at least 2 of
the 4 signals are strictly less than `τ`. -/
theorem should_quarantine_iff_two_below (s : IntegritySignals) (τ : ℚ) (_h : s.InRange) :
    shouldQuarantine s τ = true ↔
      2 ≤ ([s.trust_score, s.red_flag_score, s.anomaly_score,
            s.semantic_drift_score].countP (fun x => decide (x < τ))) := by
  clear _h
  simp only [shouldQuarantine, decide_eq_true_eq, List.countP_cons, List.countP_nil]
  split_ifs <;> omega

/-- Witness for C1 at a concrete signal tuple. -/
theorem should_quarantine_iff_two_below_witness :
    (IntegritySignals.mk 0 0 1 1).InRange ∧
    (shouldQuarantine ⟨0, 0, 1, 1⟩ 0.5 = true ↔
      2 ≤ ([(0 : ℚ), 0, 1, 1].countP (fun x => decide (x < (0.5 : ℚ))))) :=
  ⟨by decide, should_quarantine_iff_two_below ⟨0, 0, 1, 1⟩ 0.5 (by decide)⟩

/-- C2: `combined_score` is the fixed weighted sum
`0.25·trust + 0.35·red_flag + 0.15·anomaly + 0.25·semantic_drift`, and the
system-constant weights sum to 1. -/
theorem combined_score_weighted_sum (s : IntegritySignals) :
    combinedScore s =
      0.25 * s.trust_score + 0.35 * s.red_flag_score + 0.15 * s.anomaly_score +
        0.25 * s.semantic_drift_score ∧
    SIGNAL_WEIGHTS.trust + SIGNAL_WEIGHTS.red_flag + SIGNAL_WEIGHTS.anomaly +
        SIGNAL_WEIGHTS.semantic = 1 := by
  constructor
  · simp only [combinedScore, SIGNAL_WEIGHTS]
    ring
  · norm_num [SIGNAL_WEIGHTS]

/-- C3 (counterexample): when the lineage log exists but contains no matching
line, the report has 0 affected queries and severity LOW, but its
recommendation list is not the single recommendation
"No affected queries found." claimed by the spec. -/
theorem analyze_impact_counterexample :
    (analyzeImpact (some []) "doc-7" 0 0).affected_queries = 0 ∧
    (analyzeImpact (some []) "doc-7" 0 0).severity = Severity.LOW ∧
    (analyzeImpact (some []) "doc-7" 0 0).recommended_actions ≠
      ["No affected queries found."] := by
  refine ⟨rfl, rfl, ?_⟩
  decide

/-- C3 (amended): if the lineage log does not exist the report is the empty
report, whose sole recommendation is
"No affected queries found in lookback window"; if the log exists but no
parseable line matches, the report has 0 affected queries, no affected users,
severity LOW, and the two generic recommendations (review the lineage log,
notify 0 affected users). -/
theorem analyze_impact_no_matches (log : Option (List (Option QueryLineage)))
    (d : String) (now lookback : Int)
    (hnm : ∀ lines, log = some lines → ∀ e ∈ lines.filterMap id,
      ¬(d ∈ e.retrieved_docs ∧ now - lookback ≤ e.timestamp)) :
    (analyzeImpact log d now lookback).affected_queries = 0 ∧
    (analyzeImpact log d now lookback).affected_users = [] ∧
    (analyzeImpact log d now lookback).severity = Severity.LOW ∧
    (analyzeImpact log d now lookback).recommended_actions =
      (match log with
       | none => ["No affected queries found in lookback window"]
       | some _ => ["Review query lineage log for document " ++ d,
                    "Notify 0 affected user(s) about potentially compromised guidance"]) := by
  cases log with
  | none => exact ⟨rfl, rfl, rfl, rfl⟩
  | some lines =>
    have hf : (lines.filterMap id).filter
        (fun e => decide (d ∈ e.retrieved_docs) && decide (now - lookback ≤ e.timestamp)) = [] := by
      rw [List.filter_eq_nil_iff]
      intro e he
      have hne := hnm lines rfl e he
      simp only [Bool.and_eq_true, decide_eq_true_eq]
      tauto
    simp only [analyzeImpact, hf]
    exact ⟨rfl, rfl, rfl, rfl⟩

/-- Witness for C3 at a concrete non-matching log line. -/
theorem analyze_impact_no_matches_witness :
    (analyzeImpact (some [some ⟨"q1", "u1", -5, ["other-doc"]⟩]) "doc-7" 0 1).affected_queries
      = 0 :=
  (analyze_impact_no_matches (some [some ⟨"q1", "u1", -5, ["other-doc"]⟩]) "doc-7" 0 1
    (by
      intro lines hl e he
      cases hl
      simp at he
      subst he
      decide)).1

/-- C4 (code evaluated at the failing input): the event the orchestrator logs
when retrieval returns no documents has category System but event id 1001,
which is outside the documented System range 4001–4004. -/
theorem no_docs_system_event_id_out_of_range :
    (noDocsEvent "corpus is empty".toList).category = EventCategory.system ∧
    (noDocsEvent "corpus is empty".toList).event_id = 1001 ∧
    (noDocsEvent "corpus is empty".toList).event_id ∉ systemEventIds := by
  refine ⟨rfl, rfl, ?_⟩
  decide

/-- C6: golden-category documents are scored on the content with the
instructional-negative lines removed — so the single-line golden document
"Never disable firewall" scores 1.0 — while any other category is scored on
the unfiltered content. -/
theorem golden_exemption :
    (∀ content, redFlagScore RED_FLAGS content (some "golden") =
        scoreContent RED_FLAGS (filterGoldenContent content)) ∧
    redFlagScore RED_FLAGS "Never disable firewall".toList (some "golden") = 1 ∧
    (∀ content cat, cat ≠ some "golden" →
        redFlagScore RED_FLAGS content cat = scoreContent RED_FLAGS content) := by
  refine ⟨fun content => rfl, ?_, fun content cat hc => ?_⟩
  · show scoreContent RED_FLAGS (filterGoldenContent "Never disable firewall".toList) = 1
    have h1 : filterGoldenContent "Never disable firewall".toList = [] := by decide
    rw [h1]
    have hT : (RED_FLAGS.map (fun p => categoryFlags (lowerStr []) p.2)).sum = 0 := by decide
    have hC : RED_FLAGS.countP (fun p => decide (0 < categoryFlags (lowerStr []) p.2)) = 0 := by
      decide
    have hM : (RED_FLAGS.map (fun p => p.2.length)).sum = 41 := by decide
    simp only [scoreContent, hT, hC, hM]
    norm_num [max_eq_left]
  · simp [redFlagScore, hc]

/-- Witness for C6 at a concrete non-golden category. -/
theorem golden_exemption_witness :
    (some "clean" : Option String) ≠ some "golden" ∧
    redFlagScore RED_FLAGS "bypass check".toList (some "clean") =
      scoreContent RED_FLAGS "bypass check".toList :=
  ⟨by decide, golden_exemption.2.2 "bypass check".toList (some "clean") (by decide)⟩

/-- For a positive multiplier, clamping before multiplying and clamping after
gives the same result as a single final clamp. -/
theorem clamp_mul_clamp (x k : ℚ) (hk : 0 < k) :
    max (x * k) 0 = max (max x 0 * k) 0 := by
  rcases le_or_lt 0 x with hx | hx
  · rw [max_eq_left hx]
  · rw [max_eq_right hx.le, zero_mul, max_eq_right (mul_neg_of_neg_of_pos hx hk).le]
    exact (max_self 0).symm

/-- The code's scoring (`RedFlagDetector.score` after the golden filter)
agrees with the spec's clamped formula whenever the keyword table is
non-empty. -/
theorem scoreContent_eq_claim (flags : List (String × List String))
    (hm : (flags.map (fun p => p.2.length)).sum ≠ 0) (content : List Char) :
    scoreContent flags content = claimRedFlagScore flags content := by
  simp only [scoreContent, claimRedFlagScore, if_neg hm]
  set T : Nat := (flags.map (fun p => categoryFlags (lowerStr content) p.2)).sum with hT
  set M : Nat := (flags.map (fun p => p.2.length)).sum with hM
  have hx : (1 : ℚ) - 1.5 * ((T : ℚ) / (M : ℚ)) = 1 - (T : ℚ) / (M : ℚ) * 1.5 := by ring
  rw [hx]
  split_ifs
  · exact clamp_mul_clamp _ 0.60 (by norm_num)
  · exact clamp_mul_clamp _ 0.70 (by norm_num)
  · exact clamp_mul_clamp _ 0.80 (by norm_num)
  · rw [mul_one]
    exact (max_eq_left (le_max_right _ _)).symm

/-- C7: for every (possibly filtered) content string, the red-flag score
equals the claimed formula: `base · m` clamped below at 0, with
`base = 1 − 1.5·(total_flags/max_flags)` clamped to ≥ 0 and the
category-count multiplier `m`. -/
theorem red_flag_score_formula (content : List Char) :
    scoreContent RED_FLAGS content = claimRedFlagScore RED_FLAGS content :=
  scoreContent_eq_claim RED_FLAGS (by decide) content

/-- C8: on a quarantine id with no vault directory, both analyst operations
fail with the NotFound error, the vault is unchanged, and no vector-store
call is made. -/
theorem vault_ops_not_found (v : VaultState) (qid analyst note : String)
    (h : List.lookup qid v = none) :
    confirmMalicious v qid analyst note = (Except.error (VaultError.notFound qid), v, []) ∧
    restoreDocument v qid analyst note = (Except.error (VaultError.notFound qid), v, []) := by
  constructor <;> simp [confirmMalicious, restoreDocument, h]

/-- Witness for C8 on the empty vault. -/
theorem vault_ops_not_found_witness :
    confirmMalicious ([] : VaultState) "Q-1" "alice" "" =
      (Except.error (VaultError.notFound "Q-1"), ([] : VaultState), []) ∧
    restoreDocument ([] : VaultState) "Q-1" "alice" "" =
      (Except.error (VaultError.notFound "Q-1"), ([] : VaultState), []) :=
  vault_ops_not_found ([] : VaultState) "Q-1" "alice" "" rfl

/-- C9: blast-radius severity is monotone in both inputs under the rank
LOW < MEDIUM < HIGH < CRITICAL, and the severity function agrees with the
claimed threshold description. -/
theorem severity_monotone :
    (∀ q u q' u', q ≤ q' → u ≤ u' →
      sevRank (calcSeverity q u) ≤ sevRank (calcSeverity q' u')) ∧
    (∀ q u, calcSeverity q u =
      if 20 ≤ q ∨ 10 ≤ u then Severity.CRITICAL
      else if 5 ≤ q ∨ 3 ≤ u then Severity.HIGH
      else if 1 ≤ q ∧ 1 ≤ u then Severity.MEDIUM
      else Severity.LOW) := by
  constructor
  · intro q u q' u' hq hu
    simp only [calcSeverity, THRESHOLD_CRITICAL, THRESHOLD_HIGH, THRESHOLD_MEDIUM]
    split_ifs <;> simp [sevRank] <;> omega
  · intro q u
    rfl

/-- Witness for C9 at a concrete increase of the query count. -/
theorem severity_monotone_witness :
    1 ≤ 25 ∧ sevRank (calcSeverity 1 1) ≤ sevRank (calcSeverity 25 1) :=
  ⟨by decide, severity_monotone.1 1 1 25 1 (by decide) (by decide)⟩

/-- C10: in both `confirm_malicious` and `restore_document` the state field is
assigned before the audit entry is appended, so the appended entry's
`previous_state` equals the post-transition state (and, whenever the record
actually changed state, differs from the pre-transition state). -/
theorem audit_previous_state_is_post_state (v : VaultState) (qid analyst note : String)
    (dir : VaultDir) (h : List.lookup qid v = some dir) :
    (∃ e : AuditEntry,
        confirmMalicious v qid analyst note =
          (Except.ok (), updateVault v qid
            { record := { dir.record with
                            state := QuarantineState.CONFIRMED_MALICIOUS
                            audit_trail := dir.record.audit_trail ++ [e] }
              audit_log := dir.audit_log ++ [e] }, []) ∧
        e.previous_state = some QuarantineState.CONFIRMED_MALICIOUS ∧
        (dir.record.state ≠ QuarantineState.CONFIRMED_MALICIOUS →
          e.previous_state ≠ some dir.record.state)) ∧
    (∃ e : AuditEntry,
        restoreDocument v qid analyst note =
          (Except.ok (), updateVault v qid
            { record := { dir.record with
                            state := QuarantineState.RESTORED
                            audit_trail := dir.record.audit_trail ++ [e] }
              audit_log := dir.audit_log ++ [e] },
           [VSCall.restore dir.record.doc_id]) ∧
        e.previous_state = some QuarantineState.RESTORED ∧
        (dir.record.state ≠ QuarantineState.RESTORED →
          e.previous_state ≠ some dir.record.state)) := by
  constructor
  · refine ⟨{ action := "CONFIRMED_MALICIOUS", actor := analyst, note := note,
              previous_state := some QuarantineState.CONFIRMED_MALICIOUS }, ?_, rfl, ?_⟩
    · simp [confirmMalicious, h, addAuditEntry]
    · intro hne he
      exact hne (by injection he with he'; exact he'.symm)
  · refine ⟨{ action := "RESTORED", actor := analyst, note := note,
              previous_state := some QuarantineState.RESTORED }, ?_, rfl, ?_⟩
    · simp [restoreDocument, h, addAuditEntry]
    · intro hne he
      exact hne (by injection he with he'; exact he'.symm)

/-- Witness for C10 on a one-record vault in state QUARANTINED. -/
theorem audit_previous_state_is_post_state_witness :
    (∃ e : AuditEntry,
        confirmMalicious [("Q-1-d", ⟨⟨"Q-1-d", "d", QuarantineState.QUARANTINED, "r", []⟩, []⟩)]
            "Q-1-d" "alice" "ok" =
          (Except.ok (), updateVault
            [("Q-1-d", ⟨⟨"Q-1-d", "d", QuarantineState.QUARANTINED, "r", []⟩, []⟩)] "Q-1-d"
            { record := { quarantine_id := "Q-1-d"
                          doc_id := "d"
                          state := QuarantineState.CONFIRMED_MALICIOUS
                          reason := "r"
                          audit_trail := [] ++ [e] }
              audit_log := [] ++ [e] }, []) ∧
        e.previous_state = some QuarantineState.CONFIRMED_MALICIOUS ∧
        (QuarantineState.QUARANTINED ≠ QuarantineState.CONFIRMED_MALICIOUS →
          e.previous_state ≠ some QuarantineState.QUARANTINED)) :=
  ((audit_previous_state_is_post_state
      [("Q-1-d", ⟨⟨"Q-1-d", "d", QuarantineState.QUARANTINED, "r", []⟩, []⟩)]
      "Q-1-d" "alice" "ok"
      ⟨⟨"Q-1-d", "d", QuarantineState.QUARANTINED, "r", []⟩, []⟩ rfl).1)

/- ==================== substring-counting lemmas for C5 ==================== -/

theorem isPrefixOf_self (l : List Char) : l.isPrefixOf l = true := by
  induction l with
  | nil => rfl
  | cons a t ih => simp [List.isPrefixOf, ih]

theorem isPrefixOf_length_le {p : List Char} :
    ∀ {l : List Char}, p.isPrefixOf l = true → p.length ≤ l.length := by
  induction p with
  | nil => intro l _; simp
  | cons a p ih =>
    intro l h
    cases l with
    | nil => simp [List.isPrefixOf] at h
    | cons b t =>
      simp only [List.isPrefixOf, Bool.and_eq_true] at h
      simpa using ih h.2

theorem head_ne_of_not_mem {q c : Char} {t : List Char} (hc : c ∉ q :: t) :
    (q == c) = false :=
  beq_eq_false_iff_ne.mpr (fun h => hc (by simp [h]))

theorem isPrefixOf_append_sep (c : Char) (b : List Char) :
    ∀ (p a : List Char), c ∉ p → p.isPrefixOf (a ++ c :: b) = p.isPrefixOf a
  | [], a, _ => by cases a <;> simp [List.isPrefixOf]
  | q :: p, [], hc => by
    simp [List.isPrefixOf, head_ne_of_not_mem hc]
  | q :: p, y :: a, hc => by
    have hcp : c ∉ p := fun h => hc (List.mem_cons_of_mem q h)
    simp only [List.cons_append, List.isPrefixOf, List.append_eq]
    rw [isPrefixOf_append_sep c b p a hcp]

theorem countOcc_nil_of_ne {p : List Char} (hp : p ≠ []) : countOcc p [] = 0 := by
  cases p with
  | nil => exact absurd rfl hp
  | cons q t => simp [countOcc, List.isPrefixOf]

theorem countOcc_zero_of_lt {p : List Char} :
    ∀ {l : List Char}, l.length < p.length → countOcc p l = 0
  | [], h => by
    have hp : p ≠ [] := by intro he; subst he; simp at h
    exact countOcc_nil_of_ne hp
  | c :: t, h => by
    have h1 : p.isPrefixOf (c :: t) = false := by
      cases hpf : p.isPrefixOf (c :: t)
      · rfl
      · exact absurd (isPrefixOf_length_le hpf) (by omega)
    have h2 : countOcc p t = 0 := countOcc_zero_of_lt (by simp at h ⊢; omega)
    simp [countOcc, h1, h2]

theorem countOcc_self {p : List Char} (hp : p ≠ []) : countOcc p p = 1 := by
  cases p with
  | nil => exact absurd rfl hp
  | cons q t =>
    have h1 : countOcc (q :: t) t = 0 := countOcc_zero_of_lt (by simp)
    simp [countOcc, isPrefixOf_self, h1]

theorem countOcc_append_sep {p : List Char} {c : Char} (hp : p ≠ []) (hc : c ∉ p) :
    ∀ (a b : List Char), countOcc p (a ++ c :: b) = countOcc p a + countOcc p b
  | [], b => by
    cases p with
    | nil => exact absurd rfl hp
    | cons q t =>
      simp [countOcc, List.isPrefixOf, head_ne_of_not_mem hc]
  | y :: a, b => by
    have hpref := isPrefixOf_append_sep c b p (y :: a) hc
    rw [List.cons_append] at hpref
    simp only [List.cons_append, countOcc, List.append_eq]
    simp only [hpref]
    rw [countOcc_append_sep hp hc a b]
    ring

theorem countOcc_joinWith {p : List Char} {c : Char} (hp : p ≠ []) (hc : c ∉ p) :
    ∀ (ts : List (List Char)) (q : List Char),
      countOcc p (joinWith c ts ++ c :: q) = (ts.map (countOcc p)).sum + countOcc p q
  | [], q => by
    have := countOcc_append_sep hp hc [] q
    simpa [joinWith, countOcc_nil_of_ne hp] using this
  | [t], q => by
    simp only [joinWith, List.map_cons, List.map_nil, List.sum_cons, List.sum_nil]
    rw [countOcc_append_sep hp hc t q]
    ring
  | t :: t' :: ts, q => by
    simp only [joinWith, List.map_cons, List.sum_cons]
    rw [List.append_assoc, List.cons_append, countOcc_append_sep hp hc t _,
      countOcc_joinWith hp hc (t' :: ts) q]
    simp only [List.map_cons, List.sum_cons]
    ring

theorem sum_map_boostTerms (f : List Char → Nat) (boost : Nat) :
    ∀ ids : List (List Char),
      ((boostTerms ids boost).map f).sum = (ids.map (fun y => boost * f y)).sum
  | [] => by simp [boostTerms]
  | y :: ids => by
    have ih := sum_map_boostTerms f boost ids
    simp only [boostTerms, List.flatMap_cons, List.map_append, List.sum_append,
      List.map_replicate, List.sum_replicate, smul_eq_mul, List.map_cons, List.sum_cons] at ih ⊢
    omega

theorem sum_map_single {α : Type} [DecidableEq α] (f : α → Nat) :
    ∀ (l : List α) (X : α), l.Nodup → X ∈ l → (∀ y ∈ l, y ≠ X → f y = 0) →
      (l.map f).sum = f X
  | [], X, _, hX, _ => absurd hX (List.not_mem_nil X)
  | a :: l, X, hnd, hX, hz => by
    rcases List.mem_cons.mp hX with rfl | hXl
    · have hzl : ∀ y ∈ l, f y = 0 := fun y hy =>
        hz y (List.mem_cons_of_mem _ hy) (fun hEq => (List.nodup_cons.mp hnd).1 (hEq ▸ hy))
      have hsum : (l.map f).sum = 0 :=
        List.sum_eq_zero (fun x hx => by
          obtain ⟨y, hy, rfl⟩ := List.mem_map.mp hx
          exact hzl y hy)
      simp [List.map_cons, List.sum_cons, hsum]
    · have ha : f a = 0 :=
        hz a (List.mem_cons_self a l) (fun hEq => (List.nodup_cons.mp hnd).1 (hEq ▸ hXl))
      have ih := sum_map_single f l X (List.nodup_cons.mp hnd).2 hXl
        (fun y hy hne => hz y (List.mem_cons_of_mem _ hy) hne)
      simp [List.map_cons, List.sum_cons, ha, ih]

theorem dedupKeep_subset {α : Type} [DecidableEq α] :
    ∀ (ms seen : List α) (x : α), x ∈ dedupKeep seen ms → x ∈ ms
  | [], _, x, h => absurd h (List.not_mem_nil x)
  | m :: ms, seen, x, h => by
    by_cases hm : m ∈ seen
    · simp only [dedupKeep, if_pos hm] at h
      exact List.mem_cons_of_mem _ (dedupKeep_subset ms seen x h)
    · simp only [dedupKeep, if_neg hm, List.mem_cons] at h
      rcases h with rfl | h
      · exact List.mem_cons_self ..
      · exact List.mem_cons_of_mem _ (dedupKeep_subset ms (m :: seen) x h)

theorem dedupKeep_nodup_disjoint {α : Type} [DecidableEq α] :
    ∀ (ms seen : List α), (dedupKeep seen ms).Nodup ∧ ∀ x ∈ dedupKeep seen ms, x ∉ seen
  | [], seen => by simp [dedupKeep]
  | m :: ms, seen => by
    by_cases hm : m ∈ seen
    · simp only [dedupKeep, if_pos hm]
      exact dedupKeep_nodup_disjoint ms seen
    · simp only [dedupKeep, if_neg hm]
      obtain ⟨hnd, hdis⟩ := dedupKeep_nodup_disjoint ms (m :: seen)
      refine ⟨List.nodup_cons.mpr ⟨fun hmem => hdis m hmem (List.mem_cons_self ..), hnd⟩, ?_⟩
      intro x hx hxseen
      rcases List.mem_cons.mp hx with rfl | hx'
      · exact hm hxseen
      · exact hdis x hx' (List.mem_cons_of_mem _ hxseen)

theorem takeDigitsUpTo_digits :
    ∀ (n : Nat) (l : List Char), ∀ c ∈ (takeDigitsUpTo n l).1, c.isDigit = true
  | 0, l => by simp [takeDigitsUpTo]
  | _ + 1, [] => by simp [takeDigitsUpTo]
  | n + 1, c :: l => by
    by_cases hd : c.isDigit
    · simp only [takeDigitsUpTo, if_pos hd]
      intro x hx
      rcases List.mem_cons.mp hx with rfl | hx'
      · exact hd
      · exact takeDigitsUpTo_digits n l x hx'
    · simp [takeDigitsUpTo, hd]

theorem digit_ne_space {c : Char} (h : c.isDigit = true) : c ≠ ' ' := by
  intro he
  subst he
  exact absurd h (by decide)

theorem matchCVEAt_shape {l m r : List Char} (h : matchCVEAt l = some (m, r)) :
    m ≠ [] ∧ ' ' ∉ m := by
  unfold matchCVEAt at h
  split at h
  · split at h
    · rename_i c1 c2 c3 c4 d1 d2 d3 d4 c5 rest hcond
      injection h with h'
      injection h' with h1 h2
      subst h1
      simp only [Bool.and_eq_true, decide_eq_true_eq] at hcond
      obtain ⟨⟨⟨⟨⟨⟨⟨⟨⟨hc1, hc2⟩, hc3⟩, hc4⟩, hd1⟩, hd2⟩, hd3⟩, hd4⟩, hc5⟩, hnem⟩ := hcond
      refine ⟨by simp, ?_⟩
      intro hsp
      simp only [List.mem_cons] at hsp
      rcases hsp with h | h | h | h | h | h | h | h | h | h
      · exact absurd h (by decide)
      · exact absurd h (by decide)
      · exact absurd h (by decide)
      · exact absurd h (by decide)
      · exact absurd h.symm (digit_ne_space hd1)
      · exact absurd h.symm (digit_ne_space hd2)
      · exact absurd h.symm (digit_ne_space hd3)
      · exact absurd h.symm (digit_ne_space hd4)
      · exact absurd h (by decide)
      · exact absurd rfl (digit_ne_space (takeDigitsUpTo_digits 7 rest ' ' h))
    · exact absurd h (by simp)
  · exact absurd h (by simp)

theorem scanCVEsFuel_shape :
    ∀ (fuel : Nat) (l : List Char), ∀ X ∈ scanCVEsFuel fuel l, X ≠ [] ∧ ' ' ∉ X
  | 0, l => by simp [scanCVEsFuel]
  | _ + 1, [] => by simp [scanCVEsFuel]
  | fuel + 1, c :: t => by
    intro X hX
    simp only [scanCVEsFuel] at hX
    cases hm : matchCVEAt (c :: t) with
    | none =>
      rw [hm] at hX
      exact scanCVEsFuel_shape fuel t X hX
    | some pr =>
      obtain ⟨m, r⟩ := pr
      rw [hm] at hX
      rcases List.mem_cons.mp hX with rfl | hX'
      · exact matchCVEAt_shape hm
      · exact scanCVEsFuel_shape fuel r X hX'

theorem extractCveIds_shape {l X : List Char} (h : X ∈ extractCveIds l) :
    X ≠ [] ∧ ' ' ∉ X :=
  scanCVEsFuel_shape l.length l X (dedupKeep_subset _ _ _ h)

theorem extractCveIds_nodup (l : List Char) : (extractCveIds l).Nodup :=
  (dedupKeep_nodup_disjoint (scanCVEs l) []).1

/-- C5 (amended): `augment_query` leaves a query without CVE ids unchanged;
and for an extracted CVE id `X` that occurs in no other extracted id, the
number of occurrences of `X` in the augmented query is `boost` plus the
number of occurrences of `X` in the original query (so `boost + 1` exactly
when `X` occurs once in the query). -/
theorem augment_query_count :
    (∀ (q : List Char) (boost : Nat), extractCveIds q = [] → augmentQuery q boost = q) ∧
    (∀ (q X : List Char) (boost : Nat), X ∈ extractCveIds q →
      (∀ y ∈ extractCveIds q, y ≠ X → countOcc X y = 0) →
      countOcc X (augmentQuery q boost) = boost + countOcc X q) := by
  constructor
  · intro q boost h
    simp [augmentQuery, h]
  · intro q X boost hX hdist
    obtain ⟨hne, hsp⟩ := extractCveIds_shape hX
    have hids : extractCveIds q ≠ [] := fun h => by simp [h] at hX
    have hrw : augmentQuery q boost =
        joinWith ' ' (boostTerms (extractCveIds q) boost) ++ ' ' :: q := by
      simp [augmentQuery, hids]
    rw [hrw, countOcc_joinWith hne hsp (boostTerms (extractCveIds q) boost) q,
      sum_map_boostTerms (countOcc X) boost (extractCveIds q),
      sum_map_single (fun y => boost * countOcc X y) (extractCveIds q) X
        (extractCveIds_nodup q) hX
        (fun y hy hne' => by simp [hdist y hy hne']),
      countOcc_self hne, mul_one]

/-- C5 (counterexample): in the query
"CVE-2024-0004 and CVE-2024-0004" the extracted id occurs twice, so the
augmented query contains it 5 times, not boost + 1 = 4 times. -/
theorem augment_query_counterexample :
    "CVE-2024-0004".toList ∈ extractCveIds "CVE-2024-0004 and CVE-2024-0004".toList ∧
    countOcc "CVE-2024-0004".toList "CVE-2024-0004 and CVE-2024-0004".toList = 2 ∧
    countOcc "CVE-2024-0004".toList
        (augmentQuery "CVE-2024-0004 and CVE-2024-0004".toList 3) = 5 ∧
    (5 : Nat) ≠ 3 + 1 := by
  refine ⟨by decide, by decide, by decide, by decide⟩

/-- Witness for C5 at the spec's own example query. -/
theorem augment_query_count_witness :
    countOcc "CVE-2024-0004".toList
        (augmentQuery "How to mitigate CVE-2024-0004?".toList 3) =
      3 + countOcc "CVE-2024-0004".toList "How to mitigate CVE-2024-0004?".toList :=
  augment_query_count.2 "How to mitigate CVE-2024-0004?".toList "CVE-2024-0004".toList 3
    (by decide) (by decide)

end RagEdr
